import Mathlib

/-!
Shallow embedding of the arigo aria2 RPC client (src/client.go):
the notification router / completion registry (Subscribe, onEvent,
WaitForDownload, the onDownload* handlers), the download orchestrator
(DownloadWithContext), and the batch result decoder (MultiCall), plus the
AddMetalinkAtPosition reply decoding.

Go errors are modelled as `Option String` (`none` = nil error, `some msg` =
the error created by `errors.New(msg)`); Go maps keyed by strings are
association lists with unique keys; a buffered channel is the list of
outcomes queued in it.
-/

namespace Arigo

/-- A Go `error` value: `none` is nil, `some msg` is `errors.New(msg)`. -/
abbrev GoErr := Option String

/-! ## JSON values and the fragments of `encoding/json` the decoder uses -/

/-- A JSON value, as handed to `json.Unmarshal` (one `json.RawMessage`
element of the multiplexed reply). -/
inductive Json where
  | null
  | bool (b : Bool)
  | num (n : Int)
  | str (s : String)
  | arr (elems : List Json)
  | obj (fields : List (String × Json))

/-- Modelled from the spec: the structured failure descriptor of a batch
element (code + message); its Go struct declaration (structs.go) is not
under src/, only its use in client.go's MultiCall is. The Go zero value is
`{code := 0, message := ""}`. -/
structure MethodCallError where
  code : Int
  message : String
deriving DecidableEq

/-- The Go zero value `MethodCallError{}`. -/
def zeroMethodCallError : MethodCallError := { code := 0, message := "" }

/-- Modelled from the spec: the per-element batch result, an opaque success
payload (`Result`, a `json.RawMessage`, nil when unset) together with a
pointer to a failure descriptor (`Error *MethodCallError`, `none` = nil
pointer). Its Go struct declaration is not under src/. -/
structure MethodResult where
  result : Option Json
  error : Option MethodCallError

/-- `json.Unmarshal(rawResult, &methodErr)` for `methodErr : MethodCallError`:
an object fills `code` from a numeric "code" field and `message` from a
string "message" field (later duplicate keys win, as in encoding/json);
missing or type-mismatched fields, and non-object values, leave the target
at its zero value (client.go ignores the returned error). -/
def unmarshalMethodCallError : Json → MethodCallError
  | Json.obj fields =>
      { code := match fields.reverse.lookup "code" with
          | some (Json.num n) => n
          | _ => 0,
        message := match fields.reverse.lookup "message" with
          | some (Json.str s) => s
          | _ => "" }
  | _ => zeroMethodCallError

/-- `json.Unmarshal(rawResult, &resultArray)` for
`resultArray : [1]json.RawMessage`, returning `resultArray[0]`: a JSON
array of one or more elements yields its first element raw; an empty array
leaves the slot at its zero value (nil), and a non-array value fails,
likewise leaving it nil (client.go ignores the returned error). -/
def unmarshalSingleArray : Json → Option Json
  | Json.arr (x :: _) => some x
  | _ => none

/-! ## MultiCall's per-element decoding (client.go lines 730-753) -/

/-- The body of MultiCall's loop for one raw reply element: decode a
failure descriptor; if it equals the zero value, re-decode the element as a
one-element array and take its sole member as the success payload;
either way, `Error` is set to `&methodErr`, a never-nil pointer to the
decoded descriptor. -/
def decodeMethodResult (rawResult : Json) : MethodResult :=
  let methodErr := unmarshalMethodCallError rawResult
  if methodErr = zeroMethodCallError then
    { result := unmarshalSingleArray rawResult, error := some methodErr }
  else
    { result := none, error := some methodErr }

/-- MultiCall's decoding of the whole raw multiplexed reply: one
MethodResult per element, in order (`results[i] = ...` inside
`for i, rawResult := range rawResults`). -/
def multiCallDecode (rawResults : List Json) : List MethodResult :=
  rawResults.map decodeMethodResult

/-- The success-payload field is populated: the `Result` byte slice is
non-nil. -/
def resultPopulated (r : MethodResult) : Prop := r.result.isSome

/-- The failure-descriptor field is populated: the `Error` pointer is
non-nil. -/
def errorPopulated (r : MethodResult) : Prop := r.error.isSome

/-- Exactly one of the two fields of a batch result is populated. -/
def exactlyOnePopulated (r : MethodResult) : Prop :=
  (resultPopulated r ∧ ¬ errorPopulated r) ∨ (¬ resultPopulated r ∧ errorPopulated r)

/-- A batch element is marked as a failure when the decoded descriptor it
carries differs from the zero value (this is the discriminant MultiCall's
own branch uses). -/
def markedFailure (r : MethodResult) : Prop := r.error ≠ some zeroMethodCallError

/-- A concrete three-element multiplexed reply: two well-formed success
elements around one error envelope. -/
def multiCallWitnessReply : List Json :=
  [Json.arr [Json.str "gidA"],
   Json.obj [("code", Json.num 1), ("message", Json.str "err")],
   Json.arr [Json.str "gidB"]]

/-! ## AddMetalinkAtPosition's reply decoding (client.go lines 349-370) -/

/-- A GID handle as returned by `GetGID`: the client pointer is dropped,
only the gid string matters to callers. The Go zero value has an empty
gid. -/
structure GIDv where
  gid : String
deriving DecidableEq

/-- The Go zero value of a GID. -/
def zeroGID : GIDv := { gid := "" }

/-- `c.GetGID(gid)`: wraps a raw gid string. -/
def GetGID (gid : String) : GIDv := { gid := gid }

/-- AddMetalinkAtPosition's conversion of the reply string slice into GIDs:
`gids := make([]GID, len(reply))` allocates `len(reply)` zero-value GIDs,
and the loop `for _, rawGID := range reply` appends one wrapped GID per
reply string after them. -/
def addMetalinkDecode (reply : List String) : List GIDv :=
  reply.foldl (fun gids rawGID => gids ++ [GetGID rawGID])
    (List.replicate reply.length zeroGID)

/-! ## Client state: listener table and waiter table

Event listeners are Go function values; they are opaque here, so the state
is parameterised by a listener type `α`. A slot in a listener slice is an
`Option α` because Go slices of functions can hold nil functions (and
`make([]EventListener, 1)` in Subscribe creates exactly such a slot). The
waiter table maps a gid to its buffered channel, modelled as the list of
outcomes queued in it (capacity 1 in Go; at most one outcome is ever
queued in the scenarios below). -/

/-- A lifecycle notification payload: the download handle it concerns. -/
structure DownloadEvent where
  gid : String
deriving DecidableEq

/-- The mutable state of a Client: `listeners` and `activeGIDs` maps. -/
structure ClientState (α : Type) where
  listeners : List (String × List (Option α))
  activeGIDs : List (String × List GoErr)

/-- Replace the listener slice stored under `name`, inserting the key if
absent (a Go map assignment `c.listeners[name] = ls`). -/
def storeListeners {α : Type} (m : List (String × List (Option α)))
    (name : String) (ls : List (Option α)) : List (String × List (Option α)) :=
  match m.lookup name with
  | none => m ++ [(name, ls)]
  | some _ => m.map fun p => if p.1 = name then (name, ls) else p

/-- `Subscribe(name, listener)` (client.go lines 164-172): when no slice is
registered yet, `make([]EventListener, 1)` creates a slice holding one nil
listener; the given listener is then appended to the (old or fresh) slice
and the map slot is overwritten. -/
def Subscribe {α : Type} (s : ClientState α) (name : String) (listener : α) :
    ClientState α :=
  let base : List (Option α) :=
    match s.listeners.lookup name with
    | none => [none]
    | some ls => ls
  { s with listeners := storeListeners s.listeners name (base ++ [some listener]) }

/-- `onEvent(name, event)` (client.go lines 113-122): look up the listeners
registered for `name` (nothing happens when there are none) and spawn one
goroutine `go listener(event)` per slot, in slice order, every one with
the same event. The returned list is the spawned invocations; a `none`
slot is a goroutine calling a nil function, which panics. No state is
mutated. -/
def onEvent {α : Type} (s : ClientState α) (name : String)
    (event : DownloadEvent) : List (Option α × DownloadEvent) :=
  match s.listeners.lookup name with
  | none => []
  | some ls => ls.map fun l => (l, event)

/-- `channel <- outcome` guarded by `channel, ok := c.activeGIDs[gid]; if ok`:
queue the outcome into the channel of the registered waiter for `gid`, and
do nothing when no entry exists. -/
def sendOutcome (m : List (String × List GoErr)) (gid : String)
    (outcome : GoErr) : List (String × List GoErr) :=
  match m.lookup gid with
  | none => m
  | some ch => m.map fun p => if p.1 = gid then (gid, ch ++ [outcome]) else p

/-- `onDownloadStop` (client.go lines 132-139): dispatch the event to the
"downloadStop" listeners, then signal `errors.New("download stopped")` to
the waiter for the event's gid if one is registered; the handler returns
nil. Result: (new state, spawned listener invocations, returned error). -/
def onDownloadStop {α : Type} (s : ClientState α) (event : DownloadEvent) :
    ClientState α × List (Option α × DownloadEvent) × GoErr :=
  let spawned := onEvent s "downloadStop" event
  ({ s with activeGIDs := sendOutcome s.activeGIDs event.gid (some "download stopped") },
   spawned, none)

/-- `onDownloadComplete` (client.go lines 140-148): dispatch the event to
the "downloadComplete" listeners, then signal a nil error to the waiter
for the event's gid if one is registered; the handler returns nil. -/
def onDownloadComplete {α : Type} (s : ClientState α) (event : DownloadEvent) :
    ClientState α × List (Option α × DownloadEvent) × GoErr :=
  let spawned := onEvent s "downloadComplete" event
  ({ s with activeGIDs := sendOutcome s.activeGIDs event.gid none },
   spawned, none)

/-- `onDownloadError` (client.go lines 149-156): dispatch the event to the
"downloadError" listeners, then signal
`errors.New("download encountered error")` to the waiter for the event's
gid if one is registered; the handler returns nil. -/
def onDownloadError {α : Type} (s : ClientState α) (event : DownloadEvent) :
    ClientState α × List (Option α × DownloadEvent) × GoErr :=
  let spawned := onEvent s "downloadError" event
  ({ s with activeGIDs := sendOutcome s.activeGIDs event.gid (some "download encountered error") },
   spawned, none)

/-- The entry phase of `WaitForDownload(gid)` (client.go lines 175-180):
if no channel is registered for `gid`, create one (`make(chan error, 1)`,
empty buffer) and store it; an existing channel is reused. -/
def waitForDownloadRegister {α : Type} (s : ClientState α) (gid : String) :
    ClientState α :=
  match s.activeGIDs.lookup gid with
  | some _ => s
  | none => { s with activeGIDs := s.activeGIDs ++ [(gid, [])] }

/-- The blocking phase of `WaitForDownload(gid)` (client.go lines 182-184):
`err := <-channel` consumes the first queued outcome (`none` here when the
channel is empty and the receive would still block), then
`delete(c.activeGIDs, gid)` removes the entry, and `err` is returned. -/
def waitForDownloadReceive {α : Type} (s : ClientState α) (gid : String) :
    Option (GoErr × ClientState α) :=
  match s.activeGIDs.lookup gid with
  | some (e :: _) =>
      some (e, { s with activeGIDs := s.activeGIDs.filter fun p => p.1 ≠ gid })
  | _ => none

/-! ## DownloadWithContext (client.go lines 196-220)

The orchestrator calls four external collaborators: `AddUri`,
`WaitForDownload` (spawned on a goroutine), `TellStatus` and `Delete`.
Their replies are supplied as an environment, and which `select` branch
wins (the wait goroutine's done channel versus `ctx.Done()`) is an input
bit; the embedding also records the trace of external calls made, so that
"never attempts to wait / fetch status" is a statement about the trace. -/

/-- Modelled from the spec: the remote download status record fetched by
`TellStatus` ("fetch final state"); its Go struct declaration (structs.go)
is not under src/. Its content is opaque to the orchestrator; only the Go
zero value matters here. -/
structure Status where
  fields : List (String × String)
deriving DecidableEq

/-- The Go zero value `Status{}` of the named return `status`. -/
def zeroStatus : Status := { fields := [] }

/-- One external call made by DownloadWithContext, in program order. -/
inductive OrchAction where
  | callAddUri
  | spawnWait (gid : String)
  | callDelete (gid : String)
  | callTellStatus (gid : String)
deriving DecidableEq

/-- The replies of the orchestrator's collaborators and the outcome of the
race between the done channel and the cancellation signal. -/
structure DownloadEnv where
  addUriReply : String
  addUriErr : GoErr
  ctxFiresFirst : Bool
  tellStatusReply : Status
  tellStatusErr : GoErr
  deleteErr : GoErr

/-- What DownloadWithContext returns and did: the named returns
`(status, err)` and the external calls it performed. -/
structure OrchOutcome where
  status : Status
  err : GoErr
  actions : List OrchAction
deriving DecidableEq

/-- `DownloadWithContext` (client.go lines 196-220): submit via AddUri and
abort with its error on failure; otherwise spawn
`gid.WaitForDownload()` on a goroutine and select between its done channel
and `ctx.Done()`. If the done channel fires first, return
`gid.TellStatus()`'s reply and error; if cancellation fires first, call
`gid.Delete()` discarding its result (`_ = gid.Delete()`) and return the
zero status with `errors.New("download cancelled")`. -/
def DownloadWithContext (env : DownloadEnv) : OrchOutcome :=
  match env.addUriErr with
  | some e => { status := zeroStatus, err := some e, actions := [OrchAction.callAddUri] }
  | none =>
      let gid := env.addUriReply
      if env.ctxFiresFirst then
        { status := zeroStatus,
          err := some "download cancelled",
          actions := [OrchAction.callAddUri, OrchAction.spawnWait gid,
                      OrchAction.callDelete gid] }
      else
        { status := env.tellStatusReply,
          err := env.tellStatusErr,
          actions := [OrchAction.callAddUri, OrchAction.spawnWait gid,
                      OrchAction.callTellStatus gid] }

/-! ## Helper lemmas on the association-list map model -/

theorem lookup_cons_self {β : Type} (k : String) (b : β)
    (tl : List (String × β)) : ((k, b) :: tl).lookup k = some b := by
  simp [List.lookup]

theorem lookup_cons_of_ne {β : Type} {a k : String} (b : β)
    (tl : List (String × β)) (h : a ≠ k) :
    ((a, b) :: tl).lookup k = tl.lookup k := by
  have hka : (k == a) = false := beq_false_of_ne fun hk => h hk.symm
  simp [List.lookup, hka]

theorem lookup_append_single {β : Type} (m : List (String × β)) (k : String)
    (v : β) (h : m.lookup k = none) : (m ++ [(k, v)]).lookup k = some v := by
  induction m with
  | nil => simp [List.lookup]
  | cons p tl ih =>
      obtain ⟨a, b⟩ := p
      by_cases hak : a = k
      · subst hak
        rw [lookup_cons_self] at h
        exact absurd h (by simp)
      · rw [lookup_cons_of_ne b tl hak] at h
        rw [List.cons_append, lookup_cons_of_ne b (tl ++ [(k, v)]) hak]
        exact ih h

theorem lookup_store {β : Type} (m : List (String × β)) (k : String)
    (v w : β) (h : m.lookup k = some v) :
    ((m.map fun p => if p.1 = k then (k, w) else p).lookup k) = some w := by
  induction m with
  | nil => simp [List.lookup] at h
  | cons p tl ih =>
      obtain ⟨a, b⟩ := p
      rw [List.map_cons]
      by_cases hak : a = k
      · subst hak
        rw [if_pos rfl, lookup_cons_self]
      · rw [lookup_cons_of_ne b tl hak] at h
        rw [if_neg hak, lookup_cons_of_ne b _ hak]
        exact ih h

theorem lookup_filter_self {β : Type} (m : List (String × β)) (k : String) :
    ((m.filter fun p => p.1 ≠ k).lookup k) = none := by
  induction m with
  | nil => simp [List.lookup]
  | cons p tl ih =>
      obtain ⟨a, b⟩ := p
      by_cases hak : a = k
      · subst hak
        simpa [List.filter] using ih
      · have hkeep : ((a, b) :: tl).filter (fun p => p.1 ≠ k)
            = (a, b) :: tl.filter (fun p => p.1 ≠ k) := by
          simp [List.filter, hak]
        rw [hkeep, lookup_cons_of_ne b _ hak]
        exact ih

theorem sendOutcome_absent (m : List (String × List GoErr)) (gid : String)
    (o : GoErr) (h : m.lookup gid = none) : sendOutcome m gid o = m := by
  unfold sendOutcome
  rw [h]

theorem sendOutcome_present (m : List (String × List GoErr)) (gid : String)
    (o : GoErr) (ch : List GoErr) (h : m.lookup gid = some ch) :
    (sendOutcome m gid o).lookup gid = some (ch ++ [o]) := by
  unfold sendOutcome
  rw [h]
  exact lookup_store m gid ch (ch ++ [o]) h

/-! ## Lemmas about the batch decoder -/

theorem decodeMethodResult_error (raw : Json) :
    (decodeMethodResult raw).error = some (unmarshalMethodCallError raw) := by
  by_cases hz : unmarshalMethodCallError raw = zeroMethodCallError <;>
    simp [decodeMethodResult, hz]

theorem decodeMethodResult_result (raw : Json) :
    (decodeMethodResult raw).result
      = if unmarshalMethodCallError raw = zeroMethodCallError
        then unmarshalSingleArray raw else none := by
  by_cases hz : unmarshalMethodCallError raw = zeroMethodCallError <;>
    simp [decodeMethodResult, hz]

theorem multiCallDecode_getD (raws : List Json) (i : Nat)
    (h : i < raws.length) :
    (multiCallDecode raws).getD i (MethodResult.mk none none)
      = decodeMethodResult (raws.getD i Json.null) := by
  induction raws generalizing i with
  | nil => simp at h
  | cons x xs ih =>
      cases i with
      | zero => simp [multiCallDecode]
      | succ j =>
          have hj : j < xs.length := by simpa using h
          simpa [multiCallDecode] using ih j hj

theorem multiCallDecode_length (raws : List Json) :
    (multiCallDecode raws).length = raws.length := by
  simp [multiCallDecode]

/-! ## Claim theorems for the batch decoder -/

/-- Claim C1 as stated is false on the code: MultiCall sets
`Error: &methodErr` on every element, a never-nil pointer, so a successful
element such as the reply `[["2089b05ecca3d829"]]` has its success payload
populated and its `Error` field populated at the same time — "never both"
fails. -/
theorem multiCall_exactly_one_populated_cex :
    ¬ (∀ (raws : List Json) (r : MethodResult),
        r ∈ multiCallDecode raws → exactlyOnePopulated r) := by
  intro hall
  have h := hall [Json.arr [Json.str "2089b05ecca3d829"]]
      (decodeMethodResult (Json.arr [Json.str "2089b05ecca3d829"]))
      (by simp [multiCallDecode])
  simp [exactlyOnePopulated, resultPopulated, errorPopulated,
    decodeMethodResult, unmarshalMethodCallError, unmarshalSingleArray,
    zeroMethodCallError] at h

/-- Claim C1 amended: for every element of the raw multiplexed reply, the
Batch Result produced by MultiCall at the same position always has its
failure-descriptor field populated (the `Error` pointer is never nil and
carries the decoded descriptor), and its success payload is populated
exactly when that decoded descriptor is the zero value and the element
decodes as a JSON array with at least one member; success and failure are
therefore distinguished by whether the pointed-to descriptor is zero, not
by which of the two fields is set. -/
theorem multiCall_error_field_always_populated (raws : List Json) (i : Nat)
    (h : i < raws.length) :
    errorPopulated ((multiCallDecode raws).getD i (MethodResult.mk none none)) ∧
    ((multiCallDecode raws).getD i (MethodResult.mk none none)).error
      = some (unmarshalMethodCallError (raws.getD i Json.null)) ∧
    (resultPopulated ((multiCallDecode raws).getD i (MethodResult.mk none none)) ↔
      (unmarshalMethodCallError (raws.getD i Json.null) = zeroMethodCallError ∧
        (unmarshalSingleArray (raws.getD i Json.null)).isSome)) := by
  rw [multiCallDecode_getD raws i h]
  refine ⟨?_, decodeMethodResult_error _, ?_⟩
  · rw [errorPopulated, decodeMethodResult_error]
    simp
  · rw [resultPopulated, decodeMethodResult_result]
    by_cases hz : unmarshalMethodCallError (raws.getD i Json.null)
        = zeroMethodCallError
    · rw [if_pos hz]
      exact ⟨fun hs => ⟨hz, hs⟩, fun hp => hp.2⟩
    · rw [if_neg hz]
      refine ⟨fun hs => absurd hs (by simp), fun hp => absurd hp.1 hz⟩

/-- Witness for the amended C1 at the concrete reply `[null]`. -/
theorem multiCall_error_field_always_populated_witness :
    0 < ([Json.null] : List Json).length ∧
    (errorPopulated ((multiCallDecode [Json.null]).getD 0 (MethodResult.mk none none)) ∧
    ((multiCallDecode [Json.null]).getD 0 (MethodResult.mk none none)).error
      = some (unmarshalMethodCallError (([Json.null] : List Json).getD 0 Json.null)) ∧
    (resultPopulated ((multiCallDecode [Json.null]).getD 0 (MethodResult.mk none none)) ↔
      (unmarshalMethodCallError (([Json.null] : List Json).getD 0 Json.null) = zeroMethodCallError ∧
        (unmarshalSingleArray (([Json.null] : List Json).getD 0 Json.null)).isSome))) :=
  ⟨by decide, multiCall_error_field_always_populated [Json.null] 0 (by decide)⟩

/-- Claim C7: MultiCall's decoding is order-preserving: on a raw reply of N
elements where element i decodes to a non-zero failure descriptor and
every other element decodes to the zero one, the output has length N, only
position i is marked as failure, and every other position carries its
element decoded as a single-element array (the sole member when the
element is a nonempty array). -/
theorem multiCall_order_preserving (raws : List Json) (i : Nat)
    (hi : i < raws.length)
    (hfail : unmarshalMethodCallError (raws.getD i Json.null) ≠ zeroMethodCallError)
    (hsucc : ∀ j, j < raws.length → j ≠ i →
      unmarshalMethodCallError (raws.getD j Json.null) = zeroMethodCallError) :
    (multiCallDecode raws).length = raws.length ∧
    (∀ j, j < raws.length →
      (markedFailure ((multiCallDecode raws).getD j (MethodResult.mk none none)) ↔ j = i)) ∧
    (∀ j, j < raws.length → j ≠ i →
      ((multiCallDecode raws).getD j (MethodResult.mk none none)).result
        = unmarshalSingleArray (raws.getD j Json.null)) := by
  refine ⟨multiCallDecode_length raws, ?_, ?_⟩
  · intro j hj
    rw [multiCallDecode_getD raws j hj, markedFailure, decodeMethodResult_error]
    constructor
    · intro hne
      by_contra hji
      exact hne (by rw [hsucc j hj hji])
    · intro hji
      subst hji
      simpa using hfail
  · intro j hj hji
    rw [multiCallDecode_getD raws j hj, decodeMethodResult_result,
      if_pos (hsucc j hj hji)]

/-- Witness for C7 on the concrete reply
`[["gidA"], {code: 1, message: "err"}, ["gidB"]]` with the failure at
position 1. -/
theorem multiCall_order_preserving_witness :
    (1 < (multiCallWitnessReply).length ∧
      unmarshalMethodCallError ((multiCallWitnessReply).getD 1 Json.null)
        ≠ zeroMethodCallError ∧
      (∀ j, j < (multiCallWitnessReply).length → j ≠ 1 →
        unmarshalMethodCallError ((multiCallWitnessReply).getD j Json.null)
          = zeroMethodCallError)) ∧
    ((multiCallDecode multiCallWitnessReply).length = (multiCallWitnessReply).length ∧
    (∀ j, j < (multiCallWitnessReply).length →
      (markedFailure ((multiCallDecode multiCallWitnessReply).getD j (MethodResult.mk none none)) ↔ j = 1)) ∧
    (∀ j, j < (multiCallWitnessReply).length → j ≠ 1 →
      ((multiCallDecode multiCallWitnessReply).getD j (MethodResult.mk none none)).result
        = unmarshalSingleArray ((multiCallWitnessReply).getD j Json.null))) :=
  ⟨⟨by decide, by decide, by decide⟩,
    multiCall_order_preserving multiCallWitnessReply 1 (by decide) (by decide)
      (by decide)⟩

/-- Claim C8: a reply element that is a failure envelope (a JSON object)
whose decoded code and message both equal their defaults — so the decoded
descriptor equals the zero value — is classified by MultiCall as a
success, not a failure, and its success payload is empty (an object is not
an array, so the single-element decode yields nothing). -/
theorem multiCall_zero_descriptor_misclassified (fields : List (String × Json))
    (h : unmarshalMethodCallError (Json.obj fields) = zeroMethodCallError) :
    ¬ markedFailure (decodeMethodResult (Json.obj fields)) ∧
    (decodeMethodResult (Json.obj fields)).result = none ∧
    (decodeMethodResult (Json.obj fields)).error = some zeroMethodCallError := by
  refine ⟨?_, ?_, ?_⟩
  · rw [markedFailure, decodeMethodResult_error, h]
    simp
  · rw [decodeMethodResult_result, if_pos h]
    rfl
  · rw [decodeMethodResult_error, h]

/-- Witness for C8 at the explicit envelope `{code: 0, message: ""}`. -/
theorem multiCall_zero_descriptor_misclassified_witness :
    unmarshalMethodCallError
        (Json.obj [("code", Json.num 0), ("message", Json.str "")])
      = zeroMethodCallError ∧
    (¬ markedFailure (decodeMethodResult
        (Json.obj [("code", Json.num 0), ("message", Json.str "")])) ∧
    (decodeMethodResult
        (Json.obj [("code", Json.num 0), ("message", Json.str "")])).result = none ∧
    (decodeMethodResult
        (Json.obj [("code", Json.num 0), ("message", Json.str "")])).error
      = some zeroMethodCallError) :=
  ⟨by decide,
    multiCall_zero_descriptor_misclassified
      [("code", Json.num 0), ("message", Json.str "")] (by decide)⟩

/-! ## Claim theorems for the completion registry -/

theorem waitForDownloadReceive_of_lookup {α : Type} (s : ClientState α)
    (gid : String) (e : GoErr) (rest : List GoErr)
    (h : s.activeGIDs.lookup gid = some (e :: rest)) :
    waitForDownloadReceive s gid
      = some (e, { s with activeGIDs := s.activeGIDs.filter fun p => p.1 ≠ gid }) := by
  unfold waitForDownloadReceive
  rw [h]

/-- Claim C3: for every handle with no registered waiter, calling
WaitForDownload (its registration phase) and then delivering a
downloadComplete notification for that handle lets the waiter's receive
return a nil error, and afterwards activeGIDs holds no entry for the
handle. -/
theorem waitForDownload_complete_roundtrip {α : Type} (s : ClientState α)
    (gid : String) (h : s.activeGIDs.lookup gid = none) :
    ∃ s3 : ClientState α,
      waitForDownloadReceive
          (onDownloadComplete (waitForDownloadRegister s gid) ⟨gid⟩).1 gid
        = some (none, s3) ∧
      s3.activeGIDs.lookup gid = none := by
  have hreg : (waitForDownloadRegister s gid).activeGIDs
      = s.activeGIDs ++ [(gid, [])] := by
    unfold waitForDownloadRegister
    rw [h]
  have hlook : (waitForDownloadRegister s gid).activeGIDs.lookup gid
      = some [] := by
    rw [hreg]
    exact lookup_append_single s.activeGIDs gid [] h
  have hsent : (onDownloadComplete (waitForDownloadRegister s gid) ⟨gid⟩).1.activeGIDs.lookup gid
      = some [none] := by
    show (sendOutcome (waitForDownloadRegister s gid).activeGIDs gid none).lookup gid
      = some [none]
    exact sendOutcome_present _ gid none [] hlook
  exact ⟨_, waitForDownloadReceive_of_lookup _ gid none [] hsent,
    lookup_filter_self _ gid⟩

/-- Witness for C3: a fresh client and the handle "2089b05ecca3d829". -/
theorem waitForDownload_complete_roundtrip_witness :
    (ClientState.mk [] [] : ClientState Nat).activeGIDs.lookup "2089b05ecca3d829"
      = none ∧
    ∃ s3 : ClientState Nat,
      waitForDownloadReceive
          (onDownloadComplete
            (waitForDownloadRegister (ClientState.mk [] []) "2089b05ecca3d829")
            ⟨"2089b05ecca3d829"⟩).1 "2089b05ecca3d829"
        = some (none, s3) ∧
      s3.activeGIDs.lookup "2089b05ecca3d829" = none :=
  ⟨rfl, waitForDownload_complete_roundtrip (ClientState.mk [] [])
    "2089b05ecca3d829" rfl⟩

/-- Claim C4: with a waiter registered for a handle (an entry with an empty
channel), a downloadStop notification delivers the non-nil error
"download stopped" and a downloadError notification delivers the different
non-nil error "download encountered error", so the waiter's returned error
distinguishes the two causes. -/
theorem stop_and_error_outcomes_distinct {α : Type} (s : ClientState α)
    (gid : String) (h : s.activeGIDs.lookup gid = some []) :
    (∃ s3 : ClientState α,
      waitForDownloadReceive (onDownloadStop s ⟨gid⟩).1 gid
        = some (some "download stopped", s3)) ∧
    (∃ s3 : ClientState α,
      waitForDownloadReceive (onDownloadError s ⟨gid⟩).1 gid
        = some (some "download encountered error", s3)) ∧
    (some "download stopped" : GoErr) ≠ (none : GoErr) ∧
    (some "download encountered error" : GoErr) ≠ (none : GoErr) ∧
    (some "download stopped" : GoErr) ≠ (some "download encountered error" : GoErr) := by
  have hstop : (onDownloadStop s ⟨gid⟩).1.activeGIDs.lookup gid
      = some [some "download stopped"] :=
    sendOutcome_present _ gid _ [] h
  have herr : (onDownloadError s ⟨gid⟩).1.activeGIDs.lookup gid
      = some [some "download encountered error"] :=
    sendOutcome_present _ gid _ [] h
  exact ⟨⟨_, waitForDownloadReceive_of_lookup _ gid _ [] hstop⟩,
    ⟨_, waitForDownloadReceive_of_lookup _ gid _ [] herr⟩,
    by simp, by simp, by simp⟩

/-- Witness for C4: a client whose waiter table has one registered waiter
for the handle "g" with an empty channel. -/
theorem stop_and_error_outcomes_distinct_witness :
    (ClientState.mk [] [("g", [])] : ClientState Nat).activeGIDs.lookup "g"
      = some [] ∧
    ((∃ s3 : ClientState Nat,
      waitForDownloadReceive (onDownloadStop (ClientState.mk [] [("g", [])]) ⟨"g"⟩).1 "g"
        = some (some "download stopped", s3)) ∧
    (∃ s3 : ClientState Nat,
      waitForDownloadReceive (onDownloadError (ClientState.mk [] [("g", [])]) ⟨"g"⟩).1 "g"
        = some (some "download encountered error", s3)) ∧
    (some "download stopped" : GoErr) ≠ (none : GoErr) ∧
    (some "download encountered error" : GoErr) ≠ (none : GoErr) ∧
    (some "download stopped" : GoErr) ≠ (some "download encountered error" : GoErr)) :=
  ⟨rfl, stop_and_error_outcomes_distinct (ClientState.mk [] [("g", [])]) "g" rfl⟩

/-- Claim C9: for a handle with no registered waiter, each terminal
notification handler (downloadStop, downloadComplete, downloadError)
leaves the client state — in particular the activeGIDs table — unchanged
and still returns a nil error (the Go handler runs to completion; the
signal is silently dropped). -/
theorem terminal_notification_no_waiter_noop {α : Type} (s : ClientState α)
    (gid : String) (h : s.activeGIDs.lookup gid = none) :
    (onDownloadStop s ⟨gid⟩).1 = s ∧ (onDownloadStop s ⟨gid⟩).2.2 = none ∧
    (onDownloadComplete s ⟨gid⟩).1 = s ∧ (onDownloadComplete s ⟨gid⟩).2.2 = none ∧
    (onDownloadError s ⟨gid⟩).1 = s ∧ (onDownloadError s ⟨gid⟩).2.2 = none := by
  have hsend : ∀ o : GoErr, sendOutcome s.activeGIDs gid o = s.activeGIDs :=
    fun o => sendOutcome_absent s.activeGIDs gid o h
  refine ⟨?_, rfl, ?_, rfl, ?_, rfl⟩
  · show ({ s with activeGIDs := sendOutcome s.activeGIDs gid (some "download stopped") } : ClientState α) = s
    rw [hsend]
  · show ({ s with activeGIDs := sendOutcome s.activeGIDs gid none } : ClientState α) = s
    rw [hsend]
  · show ({ s with activeGIDs := sendOutcome s.activeGIDs gid (some "download encountered error") } : ClientState α) = s
    rw [hsend]

/-- Witness for C9: a client with one unrelated waiter entry and a handle
nobody waits for. -/
theorem terminal_notification_no_waiter_noop_witness :
    (ClientState.mk [] [("other", [])] : ClientState Nat).activeGIDs.lookup "g"
      = none ∧
    ((onDownloadStop (ClientState.mk [] [("other", [])] : ClientState Nat) ⟨"g"⟩).1
        = ClientState.mk [] [("other", [])] ∧
      (onDownloadStop (ClientState.mk [] [("other", [])] : ClientState Nat) ⟨"g"⟩).2.2 = none ∧
      (onDownloadComplete (ClientState.mk [] [("other", [])] : ClientState Nat) ⟨"g"⟩).1
        = ClientState.mk [] [("other", [])] ∧
      (onDownloadComplete (ClientState.mk [] [("other", [])] : ClientState Nat) ⟨"g"⟩).2.2 = none ∧
      (onDownloadError (ClientState.mk [] [("other", [])] : ClientState Nat) ⟨"g"⟩).1
        = ClientState.mk [] [("other", [])] ∧
      (onDownloadError (ClientState.mk [] [("other", [])] : ClientState Nat) ⟨"g"⟩).2.2 = none) :=
  ⟨rfl, terminal_notification_no_waiter_noop (ClientState.mk [] [("other", [])])
    "g" rfl⟩

/-! ## Claim theorem for the listener table -/

/-- Claim C2 fails on the code: `make([]EventListener, 1)` in Subscribe
allocates a slice already holding one nil listener, so after a single
`Subscribe("downloadComplete", l1)` on a fresh client the table for that
kind is `[nil, l1]`, not `[l1]`, and dispatching one downloadComplete
notification spawns a goroutine invoking the nil listener (which panics)
in addition to the goroutine invoking l1. The listener is modelled as the
opaque value `7 : Nat` and a nil slot as `none`. -/
theorem subscribe_inserts_nil_listener :
    (Subscribe (ClientState.mk [] [] : ClientState Nat) "downloadComplete" 7).listeners.lookup
        "downloadComplete" = some [none, some 7] ∧
    (onDownloadComplete
        (Subscribe (ClientState.mk [] [] : ClientState Nat) "downloadComplete" 7)
        ⟨"g"⟩).2.1
      = [(none, ⟨"g"⟩), (some 7, ⟨"g"⟩)] ∧
    (Subscribe (ClientState.mk [] [] : ClientState Nat) "downloadComplete" 7).listeners.lookup
        "downloadComplete" ≠ some [some 7] := by
  refine ⟨by decide, by decide, by decide⟩

/-! ## Claim theorems for the orchestrator -/

/-- Claim C5: when the cancellation signal fires before the terminal
notification (and submission succeeded), DownloadWithContext returns the
"download cancelled" error with the zero status (no final status), and the
outcome of the best-effort `gid.Delete()` is discarded: the whole outcome
is the same whatever error Delete produces. -/
theorem downloadWithContext_cancel_swallows_delete (env : DownloadEnv)
    (hok : env.addUriErr = none) (hctx : env.ctxFiresFirst = true) :
    (DownloadWithContext env).err = some "download cancelled" ∧
    (DownloadWithContext env).status = zeroStatus ∧
    (∀ d : GoErr,
      DownloadWithContext { env with deleteErr := d } = DownloadWithContext env) := by
  refine ⟨?_, ?_, ?_⟩ <;>
    simp [DownloadWithContext, hok, hctx]

/-- Witness for C5: a cancelled run whose Delete call itself failed. -/
theorem downloadWithContext_cancel_swallows_delete_witness :
    (DownloadEnv.mk "g" none true zeroStatus none (some "remove failed")).addUriErr = none ∧
    (DownloadEnv.mk "g" none true zeroStatus none (some "remove failed")).ctxFiresFirst = true ∧
    ((DownloadWithContext (DownloadEnv.mk "g" none true zeroStatus none (some "remove failed"))).err
        = some "download cancelled" ∧
      (DownloadWithContext (DownloadEnv.mk "g" none true zeroStatus none (some "remove failed"))).status
        = zeroStatus ∧
      (∀ d : GoErr,
        DownloadWithContext { DownloadEnv.mk "g" none true zeroStatus none (some "remove failed") with deleteErr := d }
          = DownloadWithContext (DownloadEnv.mk "g" none true zeroStatus none (some "remove failed")))) :=
  ⟨rfl, rfl,
    downloadWithContext_cancel_swallows_delete
      (DownloadEnv.mk "g" none true zeroStatus none (some "remove failed")) rfl rfl⟩

/-- Claim C6: when AddUri fails, DownloadWithContext returns exactly that
submission error with the zero status, and its external-call trace is just
the AddUri call: no wait goroutine is spawned and no status fetch happens
(hence the waiter table, touched only through WaitForDownload, is left
unchanged). -/
theorem downloadWithContext_submission_failure (env : DownloadEnv)
    (e : String) (herr : env.addUriErr = some e) :
    (DownloadWithContext env).err = some e ∧
    (DownloadWithContext env).status = zeroStatus ∧
    (DownloadWithContext env).actions = [OrchAction.callAddUri] ∧
    (∀ g : String, OrchAction.spawnWait g ∉ (DownloadWithContext env).actions) ∧
    (∀ g : String, OrchAction.callTellStatus g ∉ (DownloadWithContext env).actions) := by
  refine ⟨?_, ?_, ?_, ?_, ?_⟩ <;>
    simp [DownloadWithContext, herr]

/-- Witness for C6: a run whose AddUri reply is the error "addUri failed". -/
theorem downloadWithContext_submission_failure_witness :
    (DownloadEnv.mk "" (some "addUri failed") false zeroStatus none none).addUriErr
      = some "addUri failed" ∧
    ((DownloadWithContext (DownloadEnv.mk "" (some "addUri failed") false zeroStatus none none)).err
        = some "addUri failed" ∧
      (DownloadWithContext (DownloadEnv.mk "" (some "addUri failed") false zeroStatus none none)).status
        = zeroStatus ∧
      (DownloadWithContext (DownloadEnv.mk "" (some "addUri failed") false zeroStatus none none)).actions
        = [OrchAction.callAddUri] ∧
      (∀ g : String, OrchAction.spawnWait g
        ∉ (DownloadWithContext (DownloadEnv.mk "" (some "addUri failed") false zeroStatus none none)).actions) ∧
      (∀ g : String, OrchAction.callTellStatus g
        ∉ (DownloadWithContext (DownloadEnv.mk "" (some "addUri failed") false zeroStatus none none)).actions)) :=
  ⟨rfl,
    downloadWithContext_submission_failure
      (DownloadEnv.mk "" (some "addUri failed") false zeroStatus none none)
      "addUri failed" rfl⟩

/-! ## Claim theorem for AddMetalinkAtPosition -/

theorem foldl_append_singleton {β γ : Type} (f : β → γ) (l : List β)
    (init : List γ) :
    l.foldl (fun acc x => acc ++ [f x]) init = init ++ l.map f := by
  induction l generalizing init with
  | nil => simp
  | cons x xs ih =>
      rw [List.foldl_cons, ih (init ++ [f x]), List.map_cons,
        List.append_assoc]
      rfl

/-- Claim C10: for a successful aria2.addMetalink reply of n GID strings,
AddMetalinkAtPosition builds a slice of length 2n — n zero-value GIDs from
`make([]GID, len(reply))` followed by the n wrapped reply strings appended
in order — rather than a slice of exactly the n newly registered GIDs. -/
theorem addMetalink_returns_padded_slice (reply : List String) :
    addMetalinkDecode reply
      = List.replicate reply.length zeroGID ++ reply.map GetGID ∧
    (addMetalinkDecode reply).length = 2 * reply.length ∧
    (reply ≠ [] → addMetalinkDecode reply ≠ reply.map GetGID) := by
  have hchar : addMetalinkDecode reply
      = List.replicate reply.length zeroGID ++ reply.map GetGID :=
    foldl_append_singleton GetGID reply (List.replicate reply.length zeroGID)
  refine ⟨hchar, ?_, ?_⟩
  · rw [hchar]
    simp [List.length_append, List.length_replicate, List.length_map]
    omega
  · intro hne heq
    have hlen := congrArg List.length heq
    rw [hchar] at hlen
    simp [List.length_append, List.length_replicate, List.length_map] at hlen
    exact hne hlen

/-- Witness for C10 at the one-string reply `["2089b05ecca3d829"]`. -/
theorem addMetalink_returns_padded_slice_witness :
    (["2089b05ecca3d829"] : List String) ≠ [] ∧
    addMetalinkDecode ["2089b05ecca3d829"]
      = List.replicate (["2089b05ecca3d829"] : List String).length zeroGID
        ++ (["2089b05ecca3d829"] : List String).map GetGID ∧
    (addMetalinkDecode ["2089b05ecca3d829"]).length
      = 2 * (["2089b05ecca3d829"] : List String).length ∧
    addMetalinkDecode ["2089b05ecca3d829"]
      ≠ (["2089b05ecca3d829"] : List String).map GetGID :=
  ⟨by decide,
    (addMetalink_returns_padded_slice ["2089b05ecca3d829"]).1,
    (addMetalink_returns_padded_slice ["2089b05ecca3d829"]).2.1,
    (addMetalink_returns_padded_slice ["2089b05ecca3d829"]).2.2 (by decide)⟩

end Arigo
